import Mathlib

/-!
Verification of the data-refresh state machine of the Streamlit bitcoin
dashboard (`src/code/chapter6/AutoGenDemo/bitcoin_app.py`): the fetch
validation wrapper, the fetchers, session-state initialization, the
due-check, the auto-refresh boundary check, and the refresh transition.

Times are modelled as rational numbers of seconds since the epoch;
prices as rationals.  Python `None` becomes `Option.none`; exceptions
become `Except` / an explicit error component.
-/

namespace BitcoinApp

/-- Embeds `class DataFetchError(RuntimeError)`.  The Python class carries a
message string; each raise site in the source becomes one constructor:
`missingField f` for `raise DataFetchError(f"缺少字段: {field}")` in
`validate_price_data`, `invalidPrice` for `raise DataFetchError("价格数据异常")`,
and `emptySeries` for `raise DataFetchError("未获取到价格曲线")` in
`fetch_market_chart`. -/
inductive DataFetchError where
  | missingField (field : String)
  | invalidPrice
  | emptySeries
deriving DecidableEq, Repr

/-- Embeds `AppConfig`: `api_base_url: str`, `market_days: int`. -/
structure AppConfig where
  api_base_url : String := "https://api.coingecko.com/api/v3"
  market_days : ℤ := 2
deriving DecidableEq, Repr

/-- Embeds `AppConfig.from_env`: the environment variables
`COINGECKO_API_URL` and `COINGECKO_MARKET_DAYS` are passed explicitly as
`Option` values (`none` = unset or empty, matching Python truthiness of the
string before `int(...)`). -/
def AppConfig.from_env (url : Option String) (market_days : Option ℤ) : AppConfig :=
  let cfg : AppConfig := {}
  let cfg := { cfg with api_base_url := url.getD cfg.api_base_url }
  match market_days with
  | some d => { cfg with market_days := max 1 d }
  | none => cfg

/-- Embeds `BitcoinDataService`: a service value wrapping its config. -/
structure BitcoinDataService where
  config : AppConfig
deriving DecidableEq, Repr

/-- The dictionary returned by `fetch_current_metrics` and checked by
`validate_price_data`.  Each field holds `none` when `data.get(field)` is
`None` in Python (key absent or value `None` — `dict.get` does not
distinguish them). -/
structure PriceDict where
  current_price : Option ℚ
  price_change_24h : Option ℚ
  price_change_percentage_24h : Option ℚ
deriving DecidableEq, Repr

/-- Embeds the body of the `validate_price_data` decorator's `wrapper`,
applied to the dictionary `data` the wrapped fetch returned: check the
three required fields in order (`data.get(field) is None` raises
`DataFetchError`), then raise if `data["current_price"] <= 0`, else return
the data unchanged. -/
def validate_price_data (data : PriceDict) : Except DataFetchError PriceDict :=
  if data.current_price = none then
    .error (.missingField "current_price")
  else if data.price_change_24h = none then
    .error (.missingField "price_change_24h")
  else if data.price_change_percentage_24h = none then
    .error (.missingField "price_change_percentage_24h")
  else if data.current_price.getD 0 ≤ 0 then
    .error .invalidPrice
  else
    .ok data

/-- Embeds the dictionary construction at the end of
`fetch_current_metrics`, for a run of the function that returns at
all: `current_price = payload["usd"]`, `change_percent =
payload["usd_24h_change"]`, `change_abs = current_price * change_percent
/ 100` (for the multiplication and division to succeed in Python, both
payload values must be numbers, modelled as the rational arguments). -/
def fetch_current_metrics_raw (usd usd_24h_change : ℚ) : PriceDict :=
  { current_price := some usd
    price_change_24h := some (usd * usd_24h_change / 100)
    price_change_percentage_24h := some usd_24h_change }

/-- `fetch_current_metrics` as decorated by `@validate_price_data`: the raw
fetch result is passed through the validation wrapper. -/
def fetch_current_metrics (usd usd_24h_change : ℚ) : Except DataFetchError PriceDict :=
  validate_price_data (fetch_current_metrics_raw usd usd_24h_change)

/-- One point of the market series as pandas stores it after
`pd.to_datetime(..., unit="ms")` and `set_index("time")`: an index
timestamp and a price.  Timestamps are kept in nanoseconds since the
epoch, pandas' internal representation. -/
abbrev MarketPoint := ℤ × ℚ

/-- `pd.to_datetime(ts, unit="ms")`: a millisecond epoch value becomes a
nanosecond-precision timestamp. -/
def msToTimestamp (ms : ℤ) : ℤ := ms * 1000000

/-- Embeds `fetch_market_chart`, given the decoded
`response.json().get("prices", [])` list of `[timestampMillis, price]`
pairs: raise `DataFetchError` if the list is empty, else build the
dataframe indexed by the converted time with the price column, in source
order. -/
def fetch_market_chart (prices : List (ℤ × ℚ)) : Except DataFetchError (List MarketPoint) :=
  if prices = [] then
    .error .emptySeries
  else
    .ok (prices.map (fun p => (msToTimestamp p.1, p.2)))

/-- The `st.session_state` slots used by the controller, after
`init_session_state` has run, i.e. with every key present (the controller
functions index the keys directly, so they assume presence).  `last_update`
holds seconds since the epoch; Python `None` is `Option.none`.  A
`datetime` object is always truthy in Python, so `state["last_update"]`
truthiness is exactly `Option.isSome`. -/
structure RefreshState where
  data_service : BitcoinDataService
  price_data : Option PriceDict
  market_df : Option (List MarketPoint)
  last_update : Option ℚ
  auto_refresh : Bool
  refresh_interval : ℤ
  manual_refresh_triggered : Bool
deriving DecidableEq, Repr

/-- A `st.session_state` before `init_session_state`: each key may be
absent.  The outer `Option` is key presence (`none` = key absent); the
inner value is the stored Python value, which for `price_data`,
`market_df` and `last_update` can itself be `None`. -/
structure SessionState where
  data_service : Option BitcoinDataService
  price_data : Option (Option PriceDict)
  market_df : Option (Option (List MarketPoint))
  last_update : Option (Option ℚ)
  auto_refresh : Option Bool
  refresh_interval : Option ℤ
  manual_refresh_triggered : Option Bool
deriving DecidableEq, Repr

/-- `dict.setdefault(key, default)`: keep the stored value when the key is
present, otherwise store the default; afterwards the key is present. -/
def setdefault {α : Type} (slot : Option α) (default : α) : Option α :=
  match slot with
  | some v => some v
  | none => some default

/-- Embeds `init_session_state(data_service=None)`: resolve the default
service (built from `AppConfig.from_env()`, whose environment reads are
passed through), then `setdefault` each of the seven keys. -/
def init_session_state (data_service : Option BitcoinDataService)
    (env_url : Option String) (env_days : Option ℤ)
    (state : SessionState) : SessionState :=
  let ds := data_service.getD ⟨AppConfig.from_env env_url env_days⟩
  { data_service := setdefault state.data_service ds
    price_data := setdefault state.price_data none
    market_df := setdefault state.market_df none
    last_update := setdefault state.last_update none
    auto_refresh := setdefault state.auto_refresh false
    refresh_interval := setdefault state.refresh_interval 60
    manual_refresh_triggered := setdefault state.manual_refresh_triggered false }

/-- Embeds `should_refresh_data()`, with `datetime.now()` passed as `now`:
`needs_refresh = price_data is None`; `manual =
state.get("manual_refresh_triggered", False)` (the key is present in a
`RefreshState`); `auto` is false unless `auto_refresh` and `last_update`
are truthy, in which case `auto = (now - last_update).total_seconds() >=
refresh_interval`; return `any([needs_refresh, manual, auto])`. -/
def should_refresh_data (state : RefreshState) (now : ℚ) : Bool :=
  let needs_refresh := state.price_data.isNone
  let manual := state.manual_refresh_triggered
  let auto :=
    if state.auto_refresh then
      match state.last_update with
      | some lu => decide (now - lu ≥ (state.refresh_interval : ℚ))
      | none => false
    else false
  needs_refresh || manual || auto

/-- Embeds `handle_auto_refresh()`, with `datetime.now()` passed as `now`.
Returns the updated state and whether `st.rerun()` was requested: return
early when `auto_refresh` or `last_update` is falsy; otherwise, when `now
>= last_update + timedelta(seconds=refresh_interval)`, set
`manual_refresh_triggered = True`, `last_update = now` and rerun. -/
def handle_auto_refresh (state : RefreshState) (now : ℚ) : RefreshState × Bool :=
  if !state.auto_refresh || state.last_update.isNone then
    (state, false)
  else
    match state.last_update with
    | none => (state, false)
    | some lu =>
      let next_refresh := lu + (state.refresh_interval : ℚ)
      if now ≥ next_refresh then
        ({ state with manual_refresh_triggered := true, last_update := some now }, true)
      else
        (state, false)

/-- Embeds `refresh_data()`: the two fetch calls are passed as the values
they produce in this run (`Except` captures a raised
`requests.RequestException`-or-`DataFetchError` as `.error`).  Statements
run in source order: `fetch_current_metrics()` first, then
`fetch_market_chart()`, and only after both succeed are `price_data`,
`market_df`, `last_update = datetime.now()` and finally
`manual_refresh_triggered = False` written.  An exception aborts the
function before any write, leaving the state component as it was; the
second component is the propagated exception, `none` on success. -/
def refresh_data (state : RefreshState)
    (fetch_metrics : Except DataFetchError PriceDict)
    (fetch_chart : Except DataFetchError (List MarketPoint))
    (now : ℚ) : RefreshState × Option DataFetchError :=
  match fetch_metrics with
  | .error e => (state, some e)
  | .ok price_data =>
    match fetch_chart with
    | .error e => (state, some e)
    | .ok market_df =>
      let state := { state with price_data := some price_data }
      let state := { state with market_df := some market_df }
      let state := { state with last_update := some now }
      let state := { state with manual_refresh_triggered := false }
      (state, none)

/-- Models the `st.sidebar.slider("刷新间隔 (秒)", min_value=10,
max_value=300, step=10, key="refresh_interval")` write in
`render_sidebar`: the widget constrains any value it writes to the
`refresh_interval` key into its `[min_value, max_value]` bounds. -/
def set_refresh_interval (state : RefreshState) (v : ℤ) : RefreshState :=
  { state with refresh_interval := min 300 (max 10 v) }

/-- `setdefault` on a present key keeps the stored value. -/
theorem setdefault_some {α : Type} (v : α) (d : α) : setdefault (some v) d = some v := rfl

/-- `setdefault` on an absent key stores the default. -/
theorem setdefault_none {α : Type} (d : α) : setdefault (none : Option α) d = some d := rfl

/-- C2: `should_refresh_data` returns true iff the snapshot is absent, or
the manual trigger is set, or auto-refresh is on with a last-update
present and at least `refresh_interval` seconds elapsed; the interval
boundary is inclusive: with interval 60 and snapshot present, manual
off, `last_update = now - 60` is due and `last_update = now - 59` is not. -/
theorem should_refresh_data_spec (state : RefreshState) (now : ℚ) :
    (should_refresh_data state now = true ↔
      state.price_data = none ∨ state.manual_refresh_triggered = true ∨
        (state.auto_refresh = true ∧ ∃ lu, state.last_update = some lu ∧
          now - lu ≥ (state.refresh_interval : ℚ))) ∧
    (∀ (ds : BitcoinDataService) (d : PriceDict) (md : Option (List MarketPoint)),
      should_refresh_data ⟨ds, some d, md, some (now - 60), true, 60, false⟩ now = true ∧
      should_refresh_data ⟨ds, some d, md, some (now - 59), true, 60, false⟩ now = false) := by
  constructor
  · unfold should_refresh_data
    cases hpd : state.price_data <;> cases hat : state.auto_refresh <;>
      cases hlu : state.last_update <;> cases hm : state.manual_refresh_triggered <;>
      simp_all [ge_iff_le]
  · intro ds d md
    constructor <;> simp [should_refresh_data] <;> norm_num

/-- C7 counterexample: a state whose `last_update` is absent but whose
snapshot is present (manual trigger off) is NOT due, so `last_update`
absent alone does not force `should_refresh_data` to return true. -/
theorem should_refresh_data_lastUpdate_absent_cex :
    should_refresh_data
      ⟨⟨{}⟩, some ⟨some 100, some 1, some 1⟩, none, none, true, 60, false⟩ 0 = false := rfl

/-- C7 amended: for every state in which the snapshot (`price_data`) is
absent — as on the first-ever poll, where `last_update` is absent too —
`should_refresh_data` returns true regardless of `auto_refresh`,
`manual_refresh_triggered` and the other fields. -/
theorem should_refresh_data_first_poll (state : RefreshState) (now : ℚ)
    (hlu : state.last_update = none) (hpd : state.price_data = none) :
    should_refresh_data state now = true := by
  simp [should_refresh_data, hpd]

/-- Witness for the amended C7 at a fresh controller state. -/
theorem should_refresh_data_first_poll_witness :
    should_refresh_data ⟨⟨{}⟩, none, none, none, false, 60, false⟩ 0 = true :=
  should_refresh_data_first_poll ⟨⟨{}⟩, none, none, none, false, 60, false⟩ 0 rfl rfl

/-- C1: when either fetch raises, `refresh_data` leaves the whole state —
snapshot, series, `last_update` and `manual_refresh_triggered` — exactly
as it was and propagates that error to the caller. -/
theorem refresh_data_failure (state : RefreshState)
    (fetch_metrics : Except DataFetchError PriceDict)
    (fetch_chart : Except DataFetchError (List MarketPoint))
    (now : ℚ) (e : DataFetchError)
    (h : fetch_metrics = .error e ∨
      (fetch_metrics.isOk = true ∧ fetch_chart = .error e)) :
    refresh_data state fetch_metrics fetch_chart now = (state, some e) := by
  rcases h with h | ⟨hok, hc⟩
  · simp [refresh_data, h]
  · cases fetch_metrics with
    | error e => simp [Except.isOk, Except.toBool] at hok
    | ok pd => simp [refresh_data, hc]

/-- Witness for C1: a failing first fetch with the manual trigger set
leaves the state (trigger included) untouched and surfaces the error. -/
theorem refresh_data_failure_witness :
    refresh_data ⟨⟨{}⟩, none, none, none, false, 60, true⟩
      (.error .invalidPrice) (.ok []) 0
      = (⟨⟨{}⟩, none, none, none, false, 60, true⟩, some .invalidPrice) :=
  refresh_data_failure _ _ _ _ _ (Or.inl rfl)

/-- C5: when both fetches succeed, `refresh_data` replaces the snapshot
and series with the fetched values, sets `last_update` to the current
time, clears the manual trigger, and raises nothing. -/
theorem refresh_data_success (state : RefreshState) (pd : PriceDict)
    (md : List MarketPoint) (now : ℚ) :
    refresh_data state (.ok pd) (.ok md) now =
      ({ state with
          price_data := some pd, market_df := some md,
          last_update := some now, manual_refresh_triggered := false }, none) := rfl

/-- C4: when auto-refresh is on, a last update is present and the
interval has elapsed (`now ≥ last_update + refresh_interval`),
`handle_auto_refresh` sets the manual trigger, moves `last_update` to
`now` and requests a rerun of the host loop; and for every state and
time it leaves the snapshot and series untouched (it takes no fetcher at
all — arming the flag is its only effect). -/
theorem handle_auto_refresh_due (state : RefreshState) (now lu : ℚ)
    (hauto : state.auto_refresh = true) (hlu : state.last_update = some lu)
    (hdue : now ≥ lu + (state.refresh_interval : ℚ)) :
    handle_auto_refresh state now =
      ({ state with manual_refresh_triggered := true, last_update := some now }, true) ∧
    (∀ (s : RefreshState) (t : ℚ),
      (handle_auto_refresh s t).1.price_data = s.price_data ∧
      (handle_auto_refresh s t).1.market_df = s.market_df) := by
  constructor
  · simp [handle_auto_refresh, hauto, hlu, hdue]
  · intro s t
    unfold handle_auto_refresh
    cases hl : s.last_update <;> cases ha : s.auto_refresh <;>
      simp_all <;> split <;> simp

/-- Witness for C4 at the exact interval boundary. -/
theorem handle_auto_refresh_due_witness :
    handle_auto_refresh ⟨⟨{}⟩, none, none, some 0, true, 60, false⟩ 60 =
      (⟨⟨{}⟩, none, none, some 60, true, 60, true⟩, true) :=
  (handle_auto_refresh_due ⟨⟨{}⟩, none, none, some 0, true, 60, false⟩ 60 0
    rfl rfl (by norm_num)).1

/-- C3: `validate_price_data` fails with a `DataFetchError` exactly when
a required field reads as `None` or the current price is non-positive;
at the boundary a price of 0 is rejected while 0.01 passes through the
decorated `fetch_current_metrics`. -/
theorem validate_price_data_spec :
    (∀ d : PriceDict,
      (∃ e, validate_price_data d = .error e) ↔
        (d.current_price = none ∨ d.price_change_24h = none ∨
          d.price_change_percentage_24h = none ∨
          ∃ p, d.current_price = some p ∧ p ≤ 0)) ∧
    fetch_current_metrics 0 5 = .error .invalidPrice ∧
    fetch_current_metrics (1 / 100) 5 =
      .ok (fetch_current_metrics_raw (1 / 100) 5) := by
  have h01 : ¬ ((1 : ℚ) / 100 ≤ 0) := by norm_num
  refine ⟨?_, rfl,
    by simp [fetch_current_metrics, validate_price_data, fetch_current_metrics_raw, h01]⟩
  intro d
  obtain ⟨cp, pc, pcp⟩ := d
  cases cp with
  | none => simp [validate_price_data]
  | some p =>
    cases pc with
    | none => simp [validate_price_data]
    | some q =>
      cases pcp with
      | none => simp [validate_price_data]
      | some r =>
        by_cases h : p ≤ 0 <;> simp [validate_price_data, h]

/-- Witness for C3: a fully absent payload is rejected. -/
theorem validate_price_data_spec_witness :
    ∃ e, validate_price_data ⟨none, none, none⟩ = .error e :=
  (validate_price_data_spec.1 ⟨none, none, none⟩).mpr (Or.inl rfl)

/-- C6: `fetch_market_chart` raises `DataFetchError` on an empty price
list; on a non-empty list it succeeds with a series of the same length
whose i-th point is the i-th source pair with its millisecond timestamp
converted, in the same order. -/
theorem fetch_market_chart_spec (prices : List (ℤ × ℚ)) :
    (prices = [] → fetch_market_chart prices = .error .emptySeries) ∧
    (prices ≠ [] → ∃ out, fetch_market_chart prices = .ok out ∧
      out.length = prices.length ∧
      ∀ i : ℕ, out.get? i = (prices.get? i).map (fun p => (msToTimestamp p.1, p.2))) := by
  constructor
  · intro h
    simp [fetch_market_chart, h]
  · intro h
    refine ⟨prices.map (fun p => (msToTimestamp p.1, p.2)), ?_, ?_, ?_⟩
    · simp [fetch_market_chart, h]
    · simp
    · intro i
      simp [List.get?_map]

/-- Witness for C6 on the empty list and a one-point list. -/
theorem fetch_market_chart_spec_witness :
    fetch_market_chart [] = .error .emptySeries ∧
    (∃ out, fetch_market_chart [((5 : ℤ), (2 : ℚ))] = .ok out ∧
      out.length = [((5 : ℤ), (2 : ℚ))].length ∧
      ∀ i : ℕ, out.get? i =
        ([((5 : ℤ), (2 : ℚ))].get? i).map (fun p => (msToTimestamp p.1, p.2))) :=
  ⟨(fetch_market_chart_spec []).1 rfl,
    (fetch_market_chart_spec [((5 : ℤ), (2 : ℚ))]).2 (by simp)⟩

/-- C8: the sidebar slider write clamps `refresh_interval` into
`[10, 300]`; `handle_auto_refresh` and `refresh_data` never change the
field; and when `init_session_state` fills the absent key its default 60
lies inside the bound. -/
theorem refresh_interval_bounds :
    (∀ (s : RefreshState) (v : ℤ),
      10 ≤ (set_refresh_interval s v).refresh_interval ∧
      (set_refresh_interval s v).refresh_interval ≤ 300) ∧
    (∀ (s : RefreshState) (now : ℚ),
      (handle_auto_refresh s now).1.refresh_interval = s.refresh_interval) ∧
    (∀ (s : RefreshState) (fm : Except DataFetchError PriceDict)
        (fc : Except DataFetchError (List MarketPoint)) (now : ℚ),
      (refresh_data s fm fc now).1.refresh_interval = s.refresh_interval) ∧
    (∀ (ds : Option BitcoinDataService) (u : Option String) (dy : Option ℤ)
        (st : SessionState), st.refresh_interval = none →
      (init_session_state ds u dy st).refresh_interval = some 60 ∧
        (10 : ℤ) ≤ 60 ∧ (60 : ℤ) ≤ 300) := by
  refine ⟨?_, ?_, ?_, ?_⟩
  · intro s v
    constructor
    · simp [set_refresh_interval]
    · simp [set_refresh_interval]
  · intro s now
    unfold handle_auto_refresh
    cases hl : s.last_update <;> cases ha : s.auto_refresh <;>
      simp_all <;> split <;> simp
  · intro s fm fc now
    cases fm <;> cases fc <;> simp [refresh_data]
  · intro ds u dy st h
    simp [init_session_state, h, setdefault]

/-- Witness for C8: initializing an all-absent session state puts the
default interval inside the bound. -/
theorem refresh_interval_bounds_witness :
    (init_session_state none none none
      ⟨none, none, none, none, none, none, none⟩).refresh_interval = some 60 ∧
      (10 : ℤ) ≤ 60 ∧ (60 : ℤ) ≤ 300 :=
  refresh_interval_bounds.2.2.2 none none none
    ⟨none, none, none, none, none, none, none⟩ rfl

/-- C9: `init_session_state` never overwrites a key that is already
present, and fills each absent key with its default (`None` for the data
slots, `False` for the flags, 60 for the interval, the resolved service
for `data_service`). -/
theorem init_session_state_idempotent
    (ds : Option BitcoinDataService) (u : Option String) (dy : Option ℤ)
    (st : SessionState) :
    (∀ v, st.data_service = some v →
      (init_session_state ds u dy st).data_service = some v) ∧
    (∀ v, st.price_data = some v →
      (init_session_state ds u dy st).price_data = some v) ∧
    (∀ v, st.market_df = some v →
      (init_session_state ds u dy st).market_df = some v) ∧
    (∀ v, st.last_update = some v →
      (init_session_state ds u dy st).last_update = some v) ∧
    (∀ v, st.auto_refresh = some v →
      (init_session_state ds u dy st).auto_refresh = some v) ∧
    (∀ v, st.refresh_interval = some v →
      (init_session_state ds u dy st).refresh_interval = some v) ∧
    (∀ v, st.manual_refresh_triggered = some v →
      (init_session_state ds u dy st).manual_refresh_triggered = some v) ∧
    (st.data_service = none → (init_session_state ds u dy st).data_service =
      some (ds.getD ⟨AppConfig.from_env u dy⟩)) ∧
    (st.price_data = none → (init_session_state ds u dy st).price_data = some none) ∧
    (st.market_df = none → (init_session_state ds u dy st).market_df = some none) ∧
    (st.last_update = none → (init_session_state ds u dy st).last_update = some none) ∧
    (st.auto_refresh = none → (init_session_state ds u dy st).auto_refresh = some false) ∧
    (st.refresh_interval = none →
      (init_session_state ds u dy st).refresh_interval = some 60) ∧
    (st.manual_refresh_triggered = none →
      (init_session_state ds u dy st).manual_refresh_triggered = some false) := by
  refine ⟨?_, ?_, ?_, ?_, ?_, ?_, ?_, ?_, ?_, ?_, ?_, ?_, ?_, ?_⟩ <;>
    intros <;> simp_all [init_session_state, setdefault]

/-- Witness for C9: re-initializing a partially filled state keeps the
stored flag and interval and fills the absent keys with defaults. -/
theorem init_session_state_idempotent_witness :
    (init_session_state none none none
      ⟨none, some (some ⟨some 5, some 1, some 2⟩), none, none,
        some true, some 45, none⟩).auto_refresh = some true ∧
    (init_session_state none none none
      ⟨none, some (some ⟨some 5, some 1, some 2⟩), none, none,
        some true, some 45, none⟩).refresh_interval = some 45 ∧
    (init_session_state none none none
      ⟨none, some (some ⟨some 5, some 1, some 2⟩), none, none,
        some true, some 45, none⟩).price_data = some (some ⟨some 5, some 1, some 2⟩) ∧
    (init_session_state none none none
      ⟨none, some (some ⟨some 5, some 1, some 2⟩), none, none,
        some true, some 45, none⟩).market_df = some none :=
  ⟨(init_session_state_idempotent none none none _).2.2.2.2.1 true rfl,
    (init_session_state_idempotent none none none _).2.2.2.2.2.1 45 rfl,
    (init_session_state_idempotent none none none _).2.1 _ rfl,
    (init_session_state_idempotent none none none _).2.2.2.2.2.2.2.2.2.1 rfl⟩

/-- C10: every dictionary `fetch_current_metrics` actually returns holds
all three required fields (the decorator's missing-field branch is
unreachable from this source), so the decorated call either succeeds or
fails with the non-positive-price error — nothing else. -/
theorem fetch_current_metrics_fields (usd chg : ℚ) :
    (fetch_current_metrics_raw usd chg).current_price.isSome = true ∧
    (fetch_current_metrics_raw usd chg).price_change_24h.isSome = true ∧
    (fetch_current_metrics_raw usd chg).price_change_percentage_24h.isSome = true ∧
    (fetch_current_metrics usd chg = .ok (fetch_current_metrics_raw usd chg) ∨
      fetch_current_metrics usd chg = .error .invalidPrice) := by
  refine ⟨rfl, rfl, rfl, ?_⟩
  by_cases h : usd ≤ 0
  · right
    simp [fetch_current_metrics, validate_price_data, fetch_current_metrics_raw, h]
  · left
    simp [fetch_current_metrics, validate_price_data, fetch_current_metrics_raw, h]

end BitcoinApp
